import Mathlib

/-!
# Verification of the `Boolinator` trait (rust-boolinator)

Shallow embedding of `src/lib.rs`, which implements the `Boolinator` trait
for `bool`.  Every method is a one-line conditional:

* `as_option`, `as_some`, `and_option`, `as_result` take eager payloads and
  are embedded as pure Lean functions.
* The `_from` variants take `FnOnce` closures.  A Rust `FnOnce` closure may
  mutate captured state when invoked, so a closure of Rust type
  `FnOnce() -> T` is embedded as an explicit state transformer
  `σ → T × σ`; the embedded method threads the state exactly where the
  Rust code invokes the closure.  This makes "the closure is invoked
  iff …" provable: we instrument an arbitrary closure with an invocation
  counter and read the counter off the final state.
* `expect` panics on `false`; panicking is embedded as `Except String`,
  with `Except.error msg` for `panic!("{}", msg)`.
-/

namespace Boolinator

/-- `fn as_option(self) -> Option<()> { if self { Some(()) } else { None } }` -/
def as_option (b : Bool) : Option Unit :=
  if b then some () else none

/-- `fn as_some<T>(self, some: T) -> Option<T> { if self { Some(some) } else { None } }` -/
def as_some {T : Type} (b : Bool) (v : T) : Option T :=
  if b then some v else none

/-- `fn as_some_from<T, F>(self, some: F) -> Option<T> where F: FnOnce() -> T
    { if self { Some(some()) } else { None } }`
    The closure `f : σ → T × σ` is invoked (state threaded) only on the
    `true` branch, mirroring the Rust evaluation order. -/
def as_some_from {σ T : Type} (b : Bool) (f : σ → T × σ) (s : σ) : Option T × σ :=
  if b then
    let p := f s
    (some p.1, p.2)
  else (none, s)

/-- `fn and_option<T>(self, opt: Option<T>) -> Option<T> { if self { opt } else { None } }` -/
def and_option {T : Type} (b : Bool) (opt : Option T) : Option T :=
  if b then opt else none

/-- `fn and_option_from<T, F>(self, opt: F) -> Option<T> where F: FnOnce() -> Option<T>
    { if self { opt() } else { None } }` -/
def and_option_from {σ T : Type} (b : Bool) (f : σ → Option T × σ) (s : σ) :
    Option T × σ :=
  if b then f s else (none, s)

/-- `fn as_result<T, E>(self, ok: T, err: E) -> Result<T, E>
    { if self { Ok(ok) } else { Err(err) } }`
    Rust `Result<T, E>` is embedded as `Except E T`. -/
def as_result {T E : Type} (b : Bool) (ok : T) (err : E) : Except E T :=
  if b then Except.ok ok else Except.error err

/-- `fn as_result_from<T, E, F, G>(self, ok: F, err: G) -> Result<T, E>
    where F: FnOnce() -> T, G: FnOnce() -> E
    { if self { Ok(ok()) } else { Err(err()) } }` -/
def as_result_from {σ T E : Type} (b : Bool) (fok : σ → T × σ) (ferr : σ → E × σ)
    (s : σ) : Except E T × σ :=
  if b then
    let p := fok s
    (Except.ok p.1, p.2)
  else
    let q := ferr s
    (Except.error q.1, q.2)

/-- `fn expect(self, msg: &str) { if self { () } else { panic!("{}", msg) } }`
    The `panic!` path is embedded as `Except.error msg`; note that the
    format string `"{}"` surfaces `msg` verbatim. -/
def expect (b : Bool) (msg : String) : Except String Unit :=
  if b then Except.ok () else Except.error msg

/-! ## Invocation-counting instrumentation

To state "the closure is invoked at most once / iff the boolean is true"
we wrap an arbitrary closure so that every invocation increments a `Nat`
counter carried alongside the closure's own state.  The embedded methods
are generic in the state type, so they can be run on the instrumented
state `σ × Nat` with no change to their definitions. -/

/-- Wrap a closure so each invocation increments a counter threaded in the
state. -/
def instrument {σ T : Type} (f : σ → T × σ) : σ × Nat → T × (σ × Nat) :=
  fun p =>
    let q := f p.1
    (q.1, (q.2, p.2 + 1))

/-- Wrap the `ok` closure of `as_result_from` so its invocations increment
the first of two counters. -/
def instrumentOk {σ T : Type} (f : σ → T × σ) : σ × Nat × Nat → T × (σ × Nat × Nat) :=
  fun p =>
    let q := f p.1
    (q.1, (q.2, p.2.1 + 1, p.2.2))

/-- Wrap the `err` closure of `as_result_from` so its invocations increment
the second of two counters. -/
def instrumentErr {σ E : Type} (g : σ → E × σ) : σ × Nat × Nat → E × (σ × Nat × Nat) :=
  fun p =>
    let q := g p.1
    (q.1, (q.2, p.2.1, p.2.2 + 1))

/-! ## Theorems, one per claim -/

/-- C1: for every boolean `b` and closure `f`, `as_some_from b f` invokes
`f` at most once and exactly when `b` is true (the instrumented run's
counter is `1` if `b` is true and `0` otherwise), and it returns
`some` of `f`'s result with `f`'s state update when `b` is true, and
`none` with the closure state untouched when `b` is false. -/
theorem as_some_from_invokes_iff {σ T : Type} (b : Bool) (f : σ → T × σ) (s : σ) :
    (as_some_from b (instrument f) (s, 0)).2.2 = (if b then 1 else 0)
    ∧ as_some_from b f s = (if b then (some (f s).1, (f s).2) else (none, s)) := by
  cases b <;> simp [as_some_from, instrument]

/-- C2: for every boolean `b` and closure pair `(fok, ferr)`,
`as_result_from b fok ferr` invokes exactly one of the two closures —
`fok` exactly when `b` is true, `ferr` exactly when `b` is false — and
returns `Ok` of `fok`'s result when `b` is true and `Err` of `ferr`'s
result when `b` is false. -/
theorem as_result_from_invokes_exactly_one {σ T E : Type} (b : Bool)
    (fok : σ → T × σ) (ferr : σ → E × σ) (s : σ) :
    (as_result_from b (instrumentOk fok) (instrumentErr ferr) (s, 0, 0)).2.2
      = (if b then (1, 0) else (0, 1))
    ∧ as_result_from b fok ferr s
      = (if b then (Except.ok (fok s).1, (fok s).2)
         else (Except.error (ferr s).1, (ferr s).2)) := by
  cases b <;> simp [as_result_from, instrumentOk, instrumentErr]

/-- C3: `expect false msg` terminates by panicking and the surfaced
diagnostic equals `msg` exactly (for every `msg`, the empty string
included), while `expect true msg` returns normally: the run is an error
iff the boolean is false, and the error payload is exactly `msg`. -/
theorem expect_panics_iff (b : Bool) (msg m : String) :
    (expect b msg = Except.ok () ↔ b = true)
    ∧ (expect b msg = Except.error m ↔ (b = false ∧ m = msg)) := by
  cases b <;> simp [expect]
  exact eq_comm

/-- C4: for every boolean `b` and optional `o`, `and_option b o` passes
`o` through unchanged when `b` is true (even when `o` is `none`), and is
`none` when `b` is false regardless of `o`. -/
theorem and_option_passthrough {T : Type} (o : Option T) :
    and_option true o = o ∧ and_option false o = none := by
  simp [and_option]

/-- C5: for every boolean `b` and optional-producing closure `f`,
`and_option_from b f` invokes `f` exactly when `b` is true (instrumented
counter `1` iff `b`), returning `f`'s result — whatever optional it is —
when `b` is true, and `none` with the closure state untouched when `b`
is false. -/
theorem and_option_from_invokes_iff {σ T : Type} (b : Bool)
    (f : σ → Option T × σ) (s : σ) :
    (and_option_from b (instrument f) (s, 0)).2.2 = (if b then 1 else 0)
    ∧ and_option_from b f s = (if b then f s else (none, s)) := by
  cases b <;> simp [and_option_from, instrument]

/-- C6: for every boolean `b` and eager payloads `ok`, `err`,
`as_result b ok err` is `Ok ok` iff `b` is true and `Err err` iff `b` is
false; it always returns one of these two well-formed results. -/
theorem as_result_spec {T E : Type} (b : Bool) (ok : T) (err : E) :
    (as_result b ok err = Except.ok ok ↔ b = true)
    ∧ (as_result b ok err = Except.error err ↔ b = false)
    ∧ (as_result b ok err = Except.ok ok ∨ as_result b ok err = Except.error err) := by
  cases b <;> simp [as_result]

/-- C7: for every boolean `b` and payload `v`, `as_some b v` equals
`some v` iff `b` is true, and `none` otherwise. -/
theorem as_some_spec {T : Type} (b : Bool) (v : T) :
    (as_some b v = some v ↔ b = true) ∧ (as_some b v = none ↔ b = false) := by
  cases b <;> simp [as_some]

/-- C8: for every boolean `b`, `as_option b` is non-empty iff `b` is
true: it is `some ()` when `b` is true and `none` when `b` is false. -/
theorem as_option_spec (b : Bool) :
    ((as_option b).isSome = b)
    ∧ as_option true = some () ∧ as_option false = none := by
  cases b <;> simp [as_option]

/-- C9: the eager and deferred variants agree: running a deferred variant
on a pure closure that just returns the eager payload (leaving the
closure state unchanged) yields exactly the eager variant's result and
leaves the state `s` intact, for every boolean and every state. -/
theorem eager_deferred_agree {σ T E : Type} (b : Bool) (v : T) (o : Option T)
    (ok : T) (err : E) (s : σ) :
    as_some_from b (fun t => (v, t)) s = (as_some b v, s)
    ∧ and_option_from b (fun t => (o, t)) s = (and_option b o, s)
    ∧ as_result_from b (fun t => (ok, t)) (fun t => (err, t)) s
        = (as_result b ok err, s) := by
  cases b <;> simp [as_some_from, as_some, and_option_from, and_option,
    as_result_from, as_result]

/-- C10: for every boolean `b`, `as_option b` equals `as_some b ()`: the
no-payload conversion is the unit instance of the payload-carrying
conversion. -/
theorem as_option_eq_as_some_unit (b : Bool) :
    as_option b = as_some b () := by
  cases b <;> simp [as_option, as_some]

end Boolinator
